import Mathlib

/-!
Verification of the USB/IP protocol engine of ShadowBlip/virtual-usb-rs.

The Rust sources (src/usb.rs, src/usb/hid.rs, src/usbip.rs, src/virtual_usb.rs)
are shallowly embedded: machine integers become `Nat`/`Int` with explicit
`% 2^w` at the points where the source casts (`as u8`, `as u16`), byte strings
become `List Nat`, fallible code returns `Except`, and the stateful
`VirtualUSBDevice` handlers become pure functions from a device state and a
command to a `HandleResult` recording the new state, the replies pushed to the
write channel, and the returned value (including a distinguished `panic`
outcome for `todo!()` and `unwrap()` on a failed unpack).
-/

namespace VUsb

/-! ### Byte helpers -/

/-- Low byte of a little-endian u16 (`v & 0xFF`). -/
def lo8 (v : Nat) : Nat := v % 256

/-- High byte of a little-endian u16 (`v >> 8`, masked to a byte). -/
def hi8 (v : Nat) : Nat := (v / 256) % 256

/-- A `u8` field value as written to the wire (`x as u8`). -/
def byte8 (v : Nat) : Nat := v % 256

/-- `IntegerAsBytes::to_msb_bytes` on a 32-bit value: four big-endian bytes. -/
def msbBytes4 (v : Nat) : List Nat :=
  [(v / 16777216) % 256, (v / 65536) % 256, (v / 256) % 256, v % 256]

/-! ### usbip.rs constants -/

def USBIP_CMD_SUBMIT : Nat := 1
def USBIP_CMD_UNLINK : Nat := 2
def USBIP_RET_SUBMIT : Nat := 3
def USBIP_RET_UNLINK : Nat := 4

/-! ### usb.rs constants -/

def ENDPOINT_MAX_COUNT_OUT : Nat := 16
def ENDPOINT_MAX_COUNT_IN : Nat := 16

/-- `ENDPOINT_MAX_COUNT: u8 = 32` (usb.rs:14); the submit handlers compare the
endpoint index against `ENDPOINT_MAX_COUNT as u32`. -/
def ENDPOINT_MAX_COUNT : Nat := 32

/-- Configuration characteristic `REMOTE_WAKEUP: u8 = 1 << 5`. -/
def REMOTE_WAKEUP : Nat := 32

/-- Configuration characteristic `SELF_POWERED: u8 = 1 << 6`. -/
def SELF_POWERED : Nat := 64

/-! ### usb.rs enums -/

/-- `StandardRequest` (usb.rs:18), a `PrimitiveEnum_u8` with values 0 through 12.
The source names the two reserved variants `_Reserved0`/`_Reserved1`. -/
inductive StandardRequest where
  | GetStatus
  | ClearFeature
  | Reserved0
  | SetFeature
  | Reserved1
  | SetAddress
  | GetDescriptor
  | SetDescriptor
  | GetConfiguration
  | SetConfiguration
  | GetInterface
  | SetInterface
  | SynchFrame
deriving DecidableEq, Repr

def StandardRequest.toByte : StandardRequest → Nat
  | .GetStatus => 0
  | .ClearFeature => 1
  | .Reserved0 => 2
  | .SetFeature => 3
  | .Reserved1 => 4
  | .SetAddress => 5
  | .GetDescriptor => 6
  | .SetDescriptor => 7
  | .GetConfiguration => 8
  | .SetConfiguration => 9
  | .GetInterface => 10
  | .SetInterface => 11
  | .SynchFrame => 12

/-- `PrimitiveEnum::from_primitive` for `StandardRequest`: any byte outside
0..=12 has no representation, so unpacking such a setup packet fails. -/
def StandardRequest.fromByte : Nat → Option StandardRequest
  | 0 => some .GetStatus
  | 1 => some .ClearFeature
  | 2 => some .Reserved0
  | 3 => some .SetFeature
  | 4 => some .Reserved1
  | 5 => some .SetAddress
  | 6 => some .GetDescriptor
  | 7 => some .SetDescriptor
  | 8 => some .GetConfiguration
  | 9 => some .SetConfiguration
  | 10 => some .GetInterface
  | 11 => some .SetInterface
  | 12 => some .SynchFrame
  | _ => none

/-- `Direction` (usb.rs:36): request direction from the host's perspective. -/
inductive Direction where
  | Out
  | In
deriving DecidableEq, Repr

def Direction.toBit : Direction → Nat
  | .Out => 0
  | .In => 1

/-- The direction field is a single bit, so decoding is total. -/
def Direction.fromBit (n : Nat) : Direction :=
  if n % 2 = 1 then .In else .Out

/-- `Type` (usb.rs:42), the two-bit `bmRequestType` kind field; renamed here
because `Type` is reserved in Lean. -/
inductive RequestType where
  | Standard
  | Class
  | Vendor
  | Reserved
deriving DecidableEq, Repr

def RequestType.toBits : RequestType → Nat
  | .Standard => 0
  | .Class => 1
  | .Vendor => 2
  | .Reserved => 3

/-- The kind field is two bits and all four values are variants, so decoding is
total. -/
def RequestType.fromBits (n : Nat) : RequestType :=
  match n % 4 with
  | 0 => .Standard
  | 1 => .Class
  | 2 => .Vendor
  | _ => .Reserved

/-- `Recipient` (usb.rs:50): a five-bit field whose enum only covers 0..=3, so
values 4..=31 fail to decode. -/
inductive Recipient where
  | Device
  | Interface
  | Endpoint
  | Other
deriving DecidableEq, Repr

def Recipient.toByte : Recipient → Nat
  | .Device => 0
  | .Interface => 1
  | .Endpoint => 2
  | .Other => 3

def Recipient.fromByte : Nat → Option Recipient
  | 0 => some .Device
  | 1 => some .Interface
  | 2 => some .Endpoint
  | 3 => some .Other
  | _ => none

/-- `DescriptorType` (usb.rs:88) as referenced by the engine. The engine's
GetDescriptor arm (virtual_usb.rs:515) also matches a `Debug` variant.
Modelled from the spec: the `Debug` variant is not present in the enum under
src/, only its use in the engine is; per the spec it is the USB Debug
descriptor type (0x0A) and yields an empty payload. -/
inductive DescriptorType where
  | Device
  | Configuration
  | String
  | Interface
  | Endpoint
  | DeviceQualifier
  | OtherSpeedConfiguration
  | InterfacePower
  | Debug
deriving DecidableEq, Repr

def DescriptorType.toByte : DescriptorType → Nat
  | .Device => 1
  | .Configuration => 2
  | .String => 3
  | .Interface => 4
  | .Endpoint => 5
  | .DeviceQualifier => 6
  | .OtherSpeedConfiguration => 7
  | .InterfacePower => 8
  | .Debug => 10

def DescriptorType.fromByte : Nat → Option DescriptorType
  | 1 => some .Device
  | 2 => some .Configuration
  | 3 => some .String
  | 4 => some .Interface
  | 5 => some .Endpoint
  | 6 => some .DeviceQualifier
  | 7 => some .OtherSpeedConfiguration
  | 8 => some .InterfacePower
  | 10 => some .Debug
  | _ => none

/-- `TransferType` (usb.rs:641). -/
inductive TransferType where
  | Control
  | Isochronous
  | Bulk
  | Interrupt
deriving DecidableEq, Repr

def TransferType.toBits : TransferType → Nat
  | .Control => 0
  | .Isochronous => 1
  | .Bulk => 2
  | .Interrupt => 3

/-- `SynchronizationType` (usb.rs:650). -/
inductive SynchronizationType where
  | NoSynchronization
  | Asynchronous
  | Adaptive
  | Synchronous
deriving DecidableEq, Repr

def SynchronizationType.toBits : SynchronizationType → Nat
  | .NoSynchronization => 0
  | .Asynchronous => 1
  | .Adaptive => 2
  | .Synchronous => 3

/-- `UsageType` (usb.rs:659). -/
inductive UsageType where
  | Data
  | Feedback
  | ImplicitFeedback
  | Reserved
deriving DecidableEq, Repr

def UsageType.toBits : UsageType → Nat
  | .Data => 0
  | .Feedback => 1
  | .ImplicitFeedback => 2
  | .Reserved => 3

/-- `HidDescriptorType` (usb/hid.rs:15): wValue-high descriptor type for HID;
only 0x21, 0x22 and 0x23 decode. -/
inductive HidDescriptorType where
  | Hid
  | Report
  | Physical
deriving DecidableEq, Repr

def HidDescriptorType.toByte : HidDescriptorType → Nat
  | .Hid => 33
  | .Report => 34
  | .Physical => 35

def HidDescriptorType.fromByte : Nat → Option HidDescriptorType
  | 33 => some .Hid
  | 34 => some .Report
  | 35 => some .Physical
  | _ => none

/-! ### SetupRequest (usb.rs:64) -/

/-- `SetupRequest`: the 8-byte control setup packet. `w_value`, `w_index` and
`w_length` are u16 fields. -/
structure SetupRequest where
  bm_request_type_direction : Direction
  bm_request_type_kind : RequestType
  bm_request_type_recipient : Recipient
  b_request : StandardRequest
  w_value : Nat
  w_index : Nat
  w_length : Nat
deriving DecidableEq, Repr

/-- `PackedStruct::pack` for `SetupRequest`: byte 0 is msb0 bit-packed as
direction(1) | kind(2) | recipient(5); the u16 fields are little-endian. -/
def SetupRequest.pack (r : SetupRequest) : List Nat :=
  [r.bm_request_type_direction.toBit * 128 + r.bm_request_type_kind.toBits * 32 +
     r.bm_request_type_recipient.toByte,
   r.b_request.toByte,
   lo8 r.w_value, hi8 r.w_value,
   lo8 r.w_index, hi8 r.w_index,
   lo8 r.w_length, hi8 r.w_length]

/-- `PackedStruct::unpack` for `SetupRequest` from an 8-byte slice (embedded at
bytes 40..=47 of a `USBIPHeaderCmdSubmit` frame). Fails when the buffer is not
8 bytes, when the recipient bits are outside 0..=3, or when the `bRequest`
byte is outside the 13 `StandardRequest` values. -/
def SetupRequest.unpack (b : List Nat) : Option SetupRequest :=
  match b with
  | [b0, b1, b2, b3, b4, b5, b6, b7] =>
    match Recipient.fromByte (b0 % 32), StandardRequest.fromByte b1 with
    | some recipient, some breq =>
      some { bm_request_type_direction := Direction.fromBit (b0 / 128),
             bm_request_type_kind := RequestType.fromBits (b0 / 32),
             bm_request_type_recipient := recipient,
             b_request := breq,
             w_value := b2 + 256 * b3,
             w_index := b4 + 256 * b5,
             w_length := b6 + 256 * b7 }
    | _, _ => none
  | _ => none

/-- Modelled from the spec: `SetupRequest::is_standard` is called at
virtual_usb.rs:292 but its body is not under src/; per the spec the standard
path is taken exactly when `setup.type == Standard`. -/
def SetupRequest.is_standard (r : SetupRequest) : Bool :=
  r.bm_request_type_kind = RequestType.Standard

/-! ### HidGetDescriptorRequest (usb/hid.rs:24) -/

/-- `HidGetDescriptorRequest`: reinterpretation of a setup packet where the
wValue bytes become a descriptor index and an `HidDescriptorType`. -/
structure HidGetDescriptorRequest where
  bm_request_type_direction : Direction
  bm_request_type_kind : RequestType
  bm_request_type_recipient : Recipient
  b_request : StandardRequest
  b_descriptor_index : Nat
  b_descriptor_type : HidDescriptorType
  w_interface_number : Nat
  w_descriptor_length : Nat
deriving DecidableEq, Repr

/-- `PackedStruct::unpack` for `HidGetDescriptorRequest`: byte 3 (the wValue
high byte) must be a valid `HidDescriptorType` (0x21..=0x23). -/
def HidGetDescriptorRequest.unpack (b : List Nat) : Option HidGetDescriptorRequest :=
  match b with
  | [b0, b1, b2, b3, b4, b5, b6, b7] =>
    match Recipient.fromByte (b0 % 32), StandardRequest.fromByte b1,
          HidDescriptorType.fromByte b3 with
    | some recipient, some breq, some dt =>
      some { bm_request_type_direction := Direction.fromBit (b0 / 128),
             bm_request_type_kind := RequestType.fromBits (b0 / 32),
             bm_request_type_recipient := recipient,
             b_request := breq,
             b_descriptor_index := b2,
             b_descriptor_type := dt,
             w_interface_number := b4 + 256 * b5,
             w_descriptor_length := b6 + 256 * b7 }
    | _, _, _ => none
  | _ => none

/-- `impl From<SetupRequest> for HidGetDescriptorRequest` (usb/hid.rs:48):
`value.pack().unwrap()` then `unpack(&data).unwrap()`. `none` here means the
second `unwrap()` panics. -/
def HidGetDescriptorRequest.fromSetup (r : SetupRequest) : Option HidGetDescriptorRequest :=
  HidGetDescriptorRequest.unpack r.pack

/-! ### Descriptors (usb.rs, usb/hid.rs) -/

/-- `DeviceDescriptor` (usb.rs:117): the 18-byte device descriptor. -/
structure DeviceDescriptor where
  b_length : Nat
  b_descriptor_type : Nat
  bcd_usb : Nat
  b_device_class : Nat
  b_device_sub_class : Nat
  b_device_protocol : Nat
  b_max_packet_size_0 : Nat
  id_vendor : Nat
  id_product : Nat
  bcd_device : Nat
  i_manufacturer : Nat
  i_product : Nat
  i_serial_number : Nat
  b_num_configurations : Nat
deriving DecidableEq, Repr

/-- `DeviceDescriptor::pack_to_vec`: 18 bytes, u16 fields little-endian. -/
def DeviceDescriptor.pack_to_vec (d : DeviceDescriptor) : List Nat :=
  [byte8 d.b_length, byte8 d.b_descriptor_type,
   lo8 d.bcd_usb, hi8 d.bcd_usb,
   byte8 d.b_device_class, byte8 d.b_device_sub_class, byte8 d.b_device_protocol,
   byte8 d.b_max_packet_size_0,
   lo8 d.id_vendor, hi8 d.id_vendor,
   lo8 d.id_product, hi8 d.id_product,
   lo8 d.bcd_device, hi8 d.bcd_device,
   byte8 d.i_manufacturer, byte8 d.i_product, byte8 d.i_serial_number,
   byte8 d.b_num_configurations]

/-- `DeviceDescriptor::new` (usb.rs:171). -/
def DeviceDescriptor.new (vendor_id product_id : Nat) : DeviceDescriptor where
  b_length := 18
  b_descriptor_type := 1
  bcd_usb := 0x0200
  b_device_class := 0
  b_device_sub_class := 0
  b_device_protocol := 0
  b_max_packet_size_0 := 0x10
  id_vendor := vendor_id
  id_product := product_id
  bcd_device := 0x0100
  i_manufacturer := 1
  i_product := 2
  i_serial_number := 0
  b_num_configurations := 1

/-- `DeviceQualifierDescriptor` (usb.rs:208): the 10-byte qualifier. -/
structure DeviceQualifierDescriptor where
  b_length : Nat
  b_type : Nat
  bcd_usb : Nat
  b_device_class : Nat
  b_device_sub_class : Nat
  b_device_protocol : Nat
  b_max_packet_size_0 : Nat
  b_num_configurations : Nat
  b_reserved : Nat
deriving DecidableEq, Repr

/-- `DeviceQualifierDescriptor::pack_to_vec`: 10 bytes. -/
def DeviceQualifierDescriptor.pack_to_vec (d : DeviceQualifierDescriptor) : List Nat :=
  [byte8 d.b_length, byte8 d.b_type,
   lo8 d.bcd_usb, hi8 d.bcd_usb,
   byte8 d.b_device_class, byte8 d.b_device_sub_class, byte8 d.b_device_protocol,
   byte8 d.b_max_packet_size_0, byte8 d.b_num_configurations, byte8 d.b_reserved]

/-- `DeviceQualifierDescriptor::new` (usb.rs:245). -/
def DeviceQualifierDescriptor.new : DeviceQualifierDescriptor where
  b_length := 10
  b_type := 6
  bcd_usb := 0x0200
  b_device_class := 3
  b_device_sub_class := 0
  b_device_protocol := 0
  b_max_packet_size_0 := 0x10
  b_num_configurations := 1
  b_reserved := 0

/-- `ConfigurationDescriptor` (usb.rs:384): the 9-byte configuration header.
`w_total_length` is a u16, all other fields are u8. -/
structure ConfigurationDescriptor where
  b_length : Nat
  b_descriptor_type : Nat
  w_total_length : Nat
  b_num_interfaces : Nat
  b_configuration_value : Nat
  i_configuration : Nat
  bm_attributes : Nat
  b_max_power : Nat
deriving DecidableEq, Repr

/-- `ConfigurationDescriptor::pack_to_vec`: 9 bytes, `w_total_length`
little-endian. -/
def ConfigurationDescriptor.pack_to_vec (d : ConfigurationDescriptor) : List Nat :=
  [byte8 d.b_length, byte8 d.b_descriptor_type,
   lo8 d.w_total_length, hi8 d.w_total_length,
   byte8 d.b_num_interfaces, byte8 d.b_configuration_value, byte8 d.i_configuration,
   byte8 d.bm_attributes, byte8 d.b_max_power]

/-- `ConfigurationDescriptor::new` (usb.rs:420). -/
def ConfigurationDescriptor.new : ConfigurationDescriptor where
  b_length := 9
  b_descriptor_type := 2
  w_total_length := 0
  b_num_interfaces := 0
  b_configuration_value := 1
  i_configuration := 0
  bm_attributes := 0x80
  b_max_power := 0

/-- `EndpointDescriptor` (usb.rs:668): 7 bytes with bit-packed address and
attribute bytes. The interface-class style enum fields keep their enum types;
the small reserved bit fields are `Nat`. -/
structure EndpointDescriptor where
  b_length : Nat
  b_descriptor_type : DescriptorType
  b_endpoint_address_direction : Direction
  b_endpoint_address_reserved : Nat
  b_endpoint_address_num : Nat
  bm_attributes_reserved : Nat
  bm_attributes_usage_type : UsageType
  bm_attributes_sync_type : SynchronizationType
  bm_attributes_xfer_type : TransferType
  w_max_packet_size : Nat
  b_interval : Nat
deriving DecidableEq, Repr

/-- `EndpointDescriptor::pack_to_vec`: byte 2 is msb0 direction(1) |
reserved(3) | number(4); byte 3 is reserved(2) | usage(2) | sync(2) |
transfer(2). -/
def EndpointDescriptor.pack_to_vec (d : EndpointDescriptor) : List Nat :=
  [byte8 d.b_length, d.b_descriptor_type.toByte,
   d.b_endpoint_address_direction.toBit * 128 + (d.b_endpoint_address_reserved % 8) * 16 +
     d.b_endpoint_address_num % 16,
   (d.bm_attributes_reserved % 4) * 64 + d.bm_attributes_usage_type.toBits * 16 +
     d.bm_attributes_sync_type.toBits * 4 + d.bm_attributes_xfer_type.toBits,
   lo8 d.w_max_packet_size, hi8 d.w_max_packet_size,
   byte8 d.b_interval]

/-- `EndpointDescriptor::new` (usb.rs:745). -/
def EndpointDescriptor.new : EndpointDescriptor where
  b_length := 7
  b_descriptor_type := .Endpoint
  b_endpoint_address_direction := .Out
  b_endpoint_address_reserved := 0
  b_endpoint_address_num := 1
  bm_attributes_reserved := 0
  bm_attributes_usage_type := .Data
  bm_attributes_sync_type := .NoSynchronization
  bm_attributes_xfer_type := .Control
  w_max_packet_size := 0
  b_interval := 1

/-- `InterfaceDescriptor` (usb.rs:519): 9 bytes. `b_interface_class` is the
`InterfaceClass` enum packed as its primitive u8 value, represented here by
that value (Hid = 3). -/
structure InterfaceDescriptor where
  b_length : Nat
  b_descriptor_type : Nat
  b_interface_number : Nat
  b_alternate_setting : Nat
  b_num_endpoints : Nat
  b_interface_class : Nat
  b_interface_subclass : Nat
  b_interface_protocol : Nat
  i_interface : Nat
deriving DecidableEq, Repr

/-- `InterfaceDescriptor::pack_to_vec`: 9 bytes. -/
def InterfaceDescriptor.pack_to_vec (d : InterfaceDescriptor) : List Nat :=
  [byte8 d.b_length, byte8 d.b_descriptor_type, byte8 d.b_interface_number,
   byte8 d.b_alternate_setting, byte8 d.b_num_endpoints, byte8 d.b_interface_class,
   byte8 d.b_interface_subclass, byte8 d.b_interface_protocol, byte8 d.i_interface]

/-- `HidDescriptor` (usb/hid.rs:403): 6 bytes. -/
structure HidDescriptor where
  b_length : Nat
  b_descriptor_type : Nat
  bcd_hid : Nat
  b_country_code : Nat
  b_num_descriptors : Nat
deriving DecidableEq, Repr

/-- `HidDescriptor::pack_to_vec`: 6 bytes, `bcd_hid` little-endian. -/
def HidDescriptor.pack_to_vec (d : HidDescriptor) : List Nat :=
  [byte8 d.b_length, byte8 d.b_descriptor_type, lo8 d.bcd_hid, hi8 d.bcd_hid,
   byte8 d.b_country_code, byte8 d.b_num_descriptors]

/-- `HidReportDescriptorInfo` (usb/hid.rs:447): 3 bytes; the descriptor-type
enum has the single value Report = 34 and is kept as that primitive value. -/
structure HidReportDescriptorInfo where
  b_descriptor_type : Nat
  w_descriptor_length : Nat
deriving DecidableEq, Repr

/-- `HidReportDescriptorInfo::pack_to_vec`: 3 bytes. -/
def HidReportDescriptorInfo.pack_to_vec (d : HidReportDescriptorInfo) : List Nat :=
  [byte8 d.b_descriptor_type, lo8 d.w_descriptor_length, hi8 d.w_descriptor_length]

/-- `HidInterface` (usb/hid.rs:234): an interface descriptor, an HID
descriptor, the report descriptor bodies, their 3-byte info headers and the
endpoint descriptors. -/
structure HidInterface where
  iface : InterfaceDescriptor
  descriptor : HidDescriptor
  report_descriptors : List (List Nat)
  report_descriptor_info : List HidReportDescriptorInfo
  endpoint_descriptors : List EndpointDescriptor
deriving DecidableEq, Repr

/-- `HidInterface::pack_to_vec` (usb/hid.rs:266): interface descriptor, HID
descriptor, then each report-descriptor info header, then each endpoint
descriptor, appended in order. -/
def HidInterface.pack_to_vec (h : HidInterface) : List Nat :=
  h.iface.pack_to_vec ++ h.descriptor.pack_to_vec ++
    (h.report_descriptor_info.map HidReportDescriptorInfo.pack_to_vec).flatten ++
    (h.endpoint_descriptors.map EndpointDescriptor.pack_to_vec).flatten

/-- `HidInterface::get_size` (usb/hid.rs:296):
`9 + 6 + 3 * report_descriptor_info.len() + 7 * endpoint_descriptors.len()`. -/
def HidInterface.get_size (h : HidInterface) : Nat :=
  9 + 6 + 3 * h.report_descriptor_info.length + 7 * h.endpoint_descriptors.length

/-- `Interface`: the tagged variant constructed by
`HidInterfaceBuilder::build` (`Interface::Hid`, usb/hid.rs:347) and consumed
exhaustively by the interface request handler (virtual_usb.rs:627). Its
`pack_to_vec`/`get_size` delegate to the `HidInterface` payload. -/
inductive Interface where
  | Hid : HidInterface → Interface
deriving DecidableEq, Repr

def Interface.pack_to_vec : Interface → List Nat
  | .Hid h => h.pack_to_vec

def Interface.get_size : Interface → Nat
  | .Hid h => h.get_size

/-- `Configuration` (usb.rs:269): a configuration descriptor plus the ordered
interface list. -/
structure Configuration where
  conf_desc : ConfigurationDescriptor
  interfaces : List Interface
deriving DecidableEq, Repr

/-- `Configuration::get_size` (usb.rs:307): 9 plus the size of each
interface, accumulated in order. -/
def Configuration.get_size (c : Configuration) : Nat :=
  c.interfaces.foldl (fun size iface => size + iface.get_size) 9

/-- `Configuration::pack_to_vec` (usb.rs:283): overwrite the stored
`b_num_interfaces` with `interfaces.len() as u8` and `w_total_length` with
`get_size() as u16`, pack the descriptor, then append each packed
interface. -/
def Configuration.pack_to_vec (c : Configuration) : List Nat :=
  let size := c.get_size
  let config := { c.conf_desc with
                  b_num_interfaces := c.interfaces.length % 256,
                  w_total_length := size % 65536 }
  config.pack_to_vec ++ (c.interfaces.map Interface.pack_to_vec).flatten

/-! ### Engine error kinds

The Rust engine reports errors as formatted strings; each distinct `Err(...)`
site is represented by one constructor (source strings quoted in comments). -/

inductive EngineError where
  /-- "Invalid header for submit command" / "Invalid header for unlink command" -/
  | InvalidHeader
  /-- "Invalid endpoint index" -/
  | InvalidEndpoint
  /-- "No active configuration" -/
  | NoActiveConfiguration
  /-- "Invalid descriptor type: …" -/
  | InvalidDescriptorType
  /-- "Invalid Configuration descriptor index: …" (configuration lookup) -/
  | InvalidConfigurationIndex
  /-- "Invalid Configuration descriptor index: …" (string lookup; the source
  reuses the same message text) -/
  | InvalidStringIndex
  /-- "Unsupported descriptor type: …" -/
  | UnsupportedDescriptorType
  /-- "Invalid Configuration value: …" -/
  | InvalidConfigurationValue
  /-- "Invalid device->host standard request: …" -/
  | InvalidDeviceToHostRequest
  /-- "Invalid host->device standard request: …" -/
  | InvalidHostToDeviceRequest
  /-- "Unexpected payload for EP0 standard request" -/
  | UnexpectedPayload
  /-- "Unhandled recipient: …" -/
  | UnhandledRecipient
  /-- "No current configuration set to get interface descriptor" -/
  | NoCurrentConfiguration
  /-- "No interface exists in config with index …" -/
  | NoInterfaceAtIndex
  /-- "No report descriptor exists with index …" -/
  | NoReportDescriptorAtIndex
  /-- "No data to send IN reply" -/
  | NoDataForInReply
  /-- "Unknown command to reply to" -/
  | UnknownReplyCommand
  /-- `PackingError::InvalidValue` from `StringDescriptor::pack_to_vec` -/
  | PackingInvalidValue
deriving DecidableEq, Repr

/-- `StringDescriptor` (usb.rs:776). The `str` field only feeds `Display` and
is omitted. -/
structure StringDescriptor where
  data : List Nat
deriving DecidableEq, Repr

/-- `StringDescriptor::pack_to_vec` (usb.rs:782): fails with
`PackingError::InvalidValue` when the body exceeds 126 bytes, otherwise
produces `[len + 2, 3, body…]`. -/
def StringDescriptor.pack_to_vec (s : StringDescriptor) : Except EngineError (List Nat) :=
  if s.data.length > 126 then .error .PackingInvalidValue
  else .ok ((s.data.length % 256 + 2) :: 3 :: s.data)

/-! ### USB/IP headers (usbip.rs) -/

/-- `UsbIpDirection` (usbip.rs:25): a u32 on the wire, 0 = OUT, 1 = IN. -/
inductive UsbIpDirection where
  | Out
  | In
deriving DecidableEq, Repr

/-- `USBIPHeaderBasic` (usbip.rs:156): the 20-byte big-endian basic header.
`command`, `seqnum`, `devid` and `ep` are u32 values. -/
structure USBIPHeaderBasic where
  command : Nat
  seqnum : Nat
  devid : Nat
  direction : UsbIpDirection
  ep : Nat
deriving DecidableEq, Repr

/-- `USBIPHeaderCmdSubmit` (usbip.rs:80). The i32 fields are `Int`. -/
structure USBIPHeaderCmdSubmit where
  base : USBIPHeaderBasic
  transfer_flags : Nat
  transfer_buffer_length : Int
  start_frame : Int
  number_of_packets : Int
  interval : Int
  setup : SetupRequest
deriving DecidableEq, Repr

/-- `USBIPHeaderCmdUnlink` (usbip.rs:137): the extra `seqnum` field names the
submit to unlink; `base.seqnum` is the unlink command's own seqnum. -/
structure USBIPHeaderCmdUnlink where
  base : USBIPHeaderBasic
  seqnum : Nat
deriving DecidableEq, Repr

/-- `USBIPHeaderRetSubmit` (usbip.rs:111). -/
structure USBIPHeaderRetSubmit where
  base : USBIPHeaderBasic
  status : Int
  actual_length : Int
  start_frame : Int
  number_of_packets : Int
  error_count : Int
deriving DecidableEq, Repr

/-- `USBIPHeaderRetUnlink` (usbip.rs:146). -/
structure USBIPHeaderRetUnlink where
  base : USBIPHeaderBasic
  status : Int
deriving DecidableEq, Repr

/-- `USBIPCommandHeader` (usbip.rs:49). -/
inductive USBIPCommandHeader where
  | CmdSubmit : USBIPHeaderCmdSubmit → USBIPCommandHeader
  | CmdUnlink : USBIPHeaderCmdUnlink → USBIPCommandHeader
deriving DecidableEq, Repr

/-- `USBIPCommandHeader::get_header`. -/
def USBIPCommandHeader.get_header : USBIPCommandHeader → USBIPHeaderBasic
  | .CmdSubmit cmd => cmd.base
  | .CmdUnlink cmd => cmd.base

/-- `USBIPReplyHeader` (usbip.rs:66). -/
inductive USBIPReplyHeader where
  | RetSubmit : USBIPHeaderRetSubmit → USBIPReplyHeader
  | RetUnlink : USBIPHeaderRetUnlink → USBIPReplyHeader
deriving DecidableEq, Repr

/-! ### Command, Reply, Xfer (virtual_usb.rs) -/

/-- `Command` (virtual_usb.rs:41): a decoded header plus the OUT payload bytes
read off the wire by the read handler. -/
structure Command where
  header : USBIPCommandHeader
  payload : List Nat
deriving DecidableEq, Repr

/-- `Reply` (virtual_usb.rs:54). -/
structure Reply where
  header : USBIPReplyHeader
  payload : List Nat
deriving DecidableEq, Repr

/-- `Xfer` (virtual_usb.rs:93): endpoint (u8), payload data and the
originating submit header. -/
structure Xfer where
  ep : Nat
  data : List Nat
  cmd : USBIPHeaderCmdSubmit
deriving DecidableEq, Repr

/-- `Xfer::direction`. -/
def Xfer.direction (x : Xfer) : UsbIpDirection := x.cmd.base.direction

/-- `Reply::from_xfer` (virtual_usb.rs:61): a `RET_SUBMIT` reusing the
submit's seqnum/devid/direction/ep, status 0, `actual_length = data.len()`,
and the data as payload only for IN transfers. -/
def Reply.from_xfer (xfer : Xfer) (data : List Nat) : Reply :=
  let header := xfer.cmd.base
  let payload := match header.direction with
    | .In => data
    | .Out => []
  { header := .RetSubmit {
      base := { command := USBIP_RET_SUBMIT, seqnum := header.seqnum,
                devid := header.devid, direction := header.direction,
                ep := header.ep },
      status := 0,
      actual_length := (data.length : Int),
      start_frame := 0,
      number_of_packets := 0,
      error_count := 0 },
    payload := payload }

/-! ### The protocol engine (virtual_usb.rs) -/

/-- `Info` (virtual_usb.rs:32). -/
structure Info where
  device_desc : DeviceDescriptor
  device_qualifier_desc : DeviceQualifierDescriptor
  configs : List Configuration
  string_descs : List StringDescriptor
deriving DecidableEq, Repr

/-- The engine state of a started `VirtualUSBDevice` (virtual_usb.rs:123):
its descriptors and the currently active configuration. The channel halves
and port number do not affect command handling and are omitted (the write
channel is assumed present, as it is for a started device). -/
structure VirtualUSBDevice where
  info : Info
  current_config : Option Configuration
deriving DecidableEq, Repr

/-- `VirtualUSBDevice::new`. -/
def VirtualUSBDevice.new (info : Info) : VirtualUSBDevice :=
  { info := info, current_config := none }

/-- The value a handler produces: `Ok(Option<Xfer>)`, `Err(...)`, or a panic
(`todo!()` / `unwrap()` on a failed unpack). -/
inductive Outcome where
  | ok : Option Xfer → Outcome
  | err : EngineError → Outcome
  | panic : Outcome
deriving DecidableEq, Repr

/-- The effect of handling one command: the device state afterwards, the
replies pushed to the write channel (in order), and the outcome. State
mutations and already-sent replies persist even when the handler then
errors, as they do in the source. -/
structure HandleResult where
  device : VirtualUSBDevice
  replies : List Reply
  outcome : Outcome
deriving DecidableEq, Repr

/-- `VirtualUSBDevice::reply` (virtual_usb.rs:666) for a started device:
build a reply from the command's basic header. For `USBIP_CMD_SUBMIT` the
`RET_SUBMIT` always carries `status = 0` and `actual_length = data.len()`
(the `status` argument is only used by the `USBIP_CMD_UNLINK` arm), its
payload is `data` only for IN commands, and an IN command with empty `data`
is rejected. -/
def replyToCommand (cmd : Command) (data : List Nat) (status : Int) :
    Except EngineError Reply :=
  let header := match cmd.header with
    | .CmdSubmit submit => submit.base
    | .CmdUnlink unlink => unlink.base
  match header.command with
  | 1 =>
    match header.direction with
    | .In =>
      if data.isEmpty then .error .NoDataForInReply
      else
        .ok { header := .RetSubmit {
                base := { command := USBIP_RET_SUBMIT, seqnum := header.seqnum,
                          devid := header.devid, direction := header.direction,
                          ep := header.ep },
                status := 0,
                actual_length := (data.length : Int),
                start_frame := 0,
                number_of_packets := 0,
                error_count := 0 },
              payload := data }
    | .Out =>
      .ok { header := .RetSubmit {
              base := { command := USBIP_RET_SUBMIT, seqnum := header.seqnum,
                        devid := header.devid, direction := header.direction,
                        ep := header.ep },
              status := 0,
              actual_length := (data.length : Int),
              start_frame := 0,
              number_of_packets := 0,
              error_count := 0 },
            payload := [] }
  | 2 =>
    .ok { header := .RetUnlink {
            base := { command := USBIP_RET_UNLINK, seqnum := header.seqnum,
                      devid := header.devid, direction := header.direction,
                      ep := header.ep },
            status := status },
          payload := [] }
  | _ => .error .UnknownReplyCommand

/-- `VirtualUSBDevice::handle_command_submit_epX_out` (virtual_usb.rs:327):
reject endpoint indices at or above `ENDPOINT_MAX_COUNT`, acknowledge the OUT
data with `reply(cmd, &[], payload.len())`, and surface an `Xfer` carrying
the endpoint (`ep_idx as u8`), the payload and the submit header. -/
def handle_command_submit_epX_out (dev : VirtualUSBDevice) (cmd : Command) : HandleResult :=
  match cmd.header with
  | .CmdUnlink _ => ⟨dev, [], .err .InvalidHeader⟩
  | .CmdSubmit header =>
    let ep_idx := header.base.ep
    if ENDPOINT_MAX_COUNT ≤ ep_idx then ⟨dev, [], .err .InvalidEndpoint⟩
    else
      match replyToCommand cmd [] ((cmd.payload.length : Int)) with
      | .error e => ⟨dev, [], .err e⟩
      | .ok r =>
        ⟨dev, [r], .ok (some { ep := ep_idx % 256, data := cmd.payload, cmd := header })⟩

/-- `VirtualUSBDevice::handle_command_submit_epX_in` (virtual_usb.rs:353):
reject endpoint indices at or above `ENDPOINT_MAX_COUNT` and surface an
`Xfer` without replying. -/
def handle_command_submit_epX_in (dev : VirtualUSBDevice) (cmd : Command) : HandleResult :=
  match cmd.header with
  | .CmdUnlink _ => ⟨dev, [], .err .InvalidHeader⟩
  | .CmdSubmit header =>
    let ep_idx := header.base.ep
    if ENDPOINT_MAX_COUNT ≤ ep_idx then ⟨dev, [], .err .InvalidEndpoint⟩
    else
      ⟨dev, [], .ok (some { ep := ep_idx % 256, data := cmd.payload, cmd := header })⟩

/-- `VirtualUSBDevice::handle_command_submit_epX` (virtual_usb.rs:312). -/
def handle_command_submit_epX (dev : VirtualUSBDevice) (cmd : Command) : HandleResult :=
  match cmd.header with
  | .CmdUnlink _ => ⟨dev, [], .err .InvalidHeader⟩
  | .CmdSubmit header =>
    match header.base.direction with
    | .Out => handle_command_submit_epX_out dev cmd
    | .In => handle_command_submit_epX_in dev cmd

/-- `VirtualUSBDevice::handle_command_unlink` (virtual_usb.rs:395): reply
with status −104 (ECONNRESET). -/
def handle_command_unlink (dev : VirtualUSBDevice) (cmd : Command) : HandleResult :=
  match cmd.header with
  | .CmdSubmit _ => ⟨dev, [], .err .InvalidHeader⟩
  | .CmdUnlink _ =>
    match replyToCommand cmd [] (-104) with
    | .error e => ⟨dev, [], .err e⟩
    | .ok r => ⟨dev, [r], .ok none⟩

/-- The SET_CONFIGURATION body, duplicated verbatim in the IN and OUT arms of
`handle_command_submit_ep0_standard_request_for_device` (virtual_usb.rs:539
and 571): iterate over the configurations, making the last one whose
`b_configuration_value` equals `wValue & 0xFF` current; error when none
matches; then send an empty reply. -/
def setConfiguration (dev : VirtualUSBDevice) (cmd : Command) (req : SetupRequest) :
    HandleResult :=
  let config_val := req.w_value &&& 0xFF
  let found := dev.info.configs.foldl
    (fun acc config =>
      if config_val = config.conf_desc.b_configuration_value then some config else acc)
    none
  match found with
  | none => ⟨dev, [], .err .InvalidConfigurationValue⟩
  | some config =>
    let dev' := { dev with current_config := some config }
    match replyToCommand cmd [] 0 with
    | .error e => ⟨dev', [], .err e⟩
    | .ok r => ⟨dev', [r], .ok none⟩

/-- `VirtualUSBDevice::handle_command_submit_ep0_standard_request_for_device`
(virtual_usb.rs:436). The GET_STATUS arm tests
`bm_attributes & SELF_POWERED == 1` and serializes the status word with
`to_msb_bytes`; the GET_DESCRIPTOR arm packs the selected descriptor,
computes `status = 1` when the payload is empty, truncates to `wLength` and
calls `reply`. -/
def handle_command_submit_ep0_standard_request_for_device
    (dev : VirtualUSBDevice) (cmd : Command) (req : SetupRequest)
    (direction : UsbIpDirection) : HandleResult :=
  match cmd.header with
  | .CmdUnlink _ => ⟨dev, [], .err .InvalidHeader⟩
  | .CmdSubmit header =>
    match direction with
    | .In =>
      match req.b_request with
      | .GetStatus =>
        match dev.current_config with
        | none => ⟨dev, [], .err .NoActiveConfiguration⟩
        | some config =>
          let reply0 : Nat := 0
          let self_powered := config.conf_desc.bm_attributes &&& SELF_POWERED
          let replyVal := if self_powered = 1 then reply0 ||| 1 else reply0
          let data := msbBytes4 replyVal
          match replyToCommand cmd data 0 with
          | .error e => ⟨dev, [], .err e⟩
          | .ok r => ⟨dev, [r], .ok none⟩
      | .GetDescriptor =>
        let desc_type := (req.w_value &&& 0xFF00) >>> 8
        match DescriptorType.fromByte desc_type with
        | none => ⟨dev, [], .err .InvalidDescriptorType⟩
        | some dt =>
          let desc_idx := req.w_value &&& 0xFF
          let dataE : Except EngineError (List Nat) :=
            match dt with
            | .Device => .ok dev.info.device_desc.pack_to_vec
            | .Configuration =>
              match dev.info.configs[desc_idx]? with
              | none => .error .InvalidConfigurationIndex
              | some config => .ok config.pack_to_vec
            | .String =>
              match dev.info.string_descs[desc_idx]? with
              | none => .error .InvalidStringIndex
              | some sd => sd.pack_to_vec
            | .DeviceQualifier => .ok dev.info.device_qualifier_desc.pack_to_vec
            | .Debug => .ok []
            | _ => .error .UnsupportedDescriptorType
          match dataE with
          | .error e => ⟨dev, [], .err e⟩
          | .ok data0 =>
            let status : Int := if data0.isEmpty then 1 else 0
            let data := data0.take req.w_length
            match replyToCommand cmd data status with
            | .error e => ⟨dev, [], .err e⟩
            | .ok r => ⟨dev, [r], .ok none⟩
      | .SetConfiguration => setConfiguration dev cmd req
      | _ => ⟨dev, [], .err .InvalidDeviceToHostRequest⟩
    | .Out =>
      if header.transfer_buffer_length ≠ 0 then ⟨dev, [], .err .UnexpectedPayload⟩
      else
        match req.b_request with
        | .SetConfiguration => setConfiguration dev cmd req
        | _ => ⟨dev, [], .err .InvalidHostToDeviceRequest⟩

/-- `VirtualUSBDevice::handle_command_submit_ep0_standard_request_for_iface`
(virtual_usb.rs:600). The `todo!()` arms and the `unwrap()` inside
`HidGetDescriptorRequest::from` are the `panic` outcomes. -/
def handle_command_submit_ep0_standard_request_for_iface
    (dev : VirtualUSBDevice) (cmd : Command) (req : SetupRequest)
    (direction : UsbIpDirection) : HandleResult :=
  match direction with
  | .In =>
    match req.b_request with
    | .GetDescriptor =>
      match dev.current_config with
      | none => ⟨dev, [], .err .NoCurrentConfiguration⟩
      | some config =>
        let iface_idx := req.w_index
        match config.interfaces[iface_idx]? with
        | none => ⟨dev, [], .err .NoInterfaceAtIndex⟩
        | some (.Hid hid_iface) =>
          match HidGetDescriptorRequest.fromSetup req with
          | none => ⟨dev, [], .panic⟩
          | some hid_req =>
            let desc_idx := hid_req.b_descriptor_index
            match hid_req.b_descriptor_type with
            | .Hid => ⟨dev, [], .panic⟩
            | .Report =>
              match hid_iface.report_descriptors[desc_idx]? with
              | none => ⟨dev, [], .err .NoReportDescriptorAtIndex⟩
              | some desc =>
                match replyToCommand cmd desc 0 with
                | .error e => ⟨dev, [], .err e⟩
                | .ok r => ⟨dev, [r], .ok none⟩
            | .Physical => ⟨dev, [], .panic⟩
    | _ => ⟨dev, [], .panic⟩
  | .Out => ⟨dev, [], .panic⟩

/-- `VirtualUSBDevice::handle_command_submit_ep0_standard_request`
(virtual_usb.rs:408): dispatch on the recipient. -/
def handle_command_submit_ep0_standard_request
    (dev : VirtualUSBDevice) (cmd : Command) (req : SetupRequest) : HandleResult :=
  match cmd.header with
  | .CmdUnlink _ => ⟨dev, [], .err .InvalidHeader⟩
  | .CmdSubmit header =>
    let direction := header.base.direction
    match req.bm_request_type_recipient with
    | .Device => handle_command_submit_ep0_standard_request_for_device dev cmd req direction
    | .Interface => handle_command_submit_ep0_standard_request_for_iface dev cmd req direction
    | _ => ⟨dev, [], .err .UnhandledRecipient⟩

/-- `VirtualUSBDevice::handle_command_submit_ep0` (virtual_usb.rs:287):
standard requests are handled automatically (returning no transfer);
anything else goes through the non-zero-endpoint path and gets the submit
header attached to the returned transfer. -/
def handle_command_submit_ep0 (dev : VirtualUSBDevice) (cmd : Command) : HandleResult :=
  match cmd.header with
  | .CmdUnlink _ => ⟨dev, [], .err .InvalidHeader⟩
  | .CmdSubmit header =>
    if header.setup.is_standard then
      let r := handle_command_submit_ep0_standard_request dev cmd header.setup
      match r.outcome with
      | .ok _ => { r with outcome := .ok none }
      | _ => r
    else
      let r := handle_command_submit_epX dev cmd
      match r.outcome with
      | .ok (some xfer) => { r with outcome := .ok (some { xfer with cmd := header }) }
      | _ => r

/-- `VirtualUSBDevice::handle_command` (virtual_usb.rs:268). -/
def handle_command (dev : VirtualUSBDevice) (cmd : Command) : HandleResult :=
  match cmd.header with
  | .CmdSubmit header =>
    if header.base.ep = 0 then handle_command_submit_ep0 dev cmd
    else handle_command_submit_epX dev cmd
  | .CmdUnlink _ => handle_command_unlink dev cmd

/-! ### Concrete fixtures

A small device in the style of the examples: one configuration with one HID
interface holding one report descriptor. -/

/-- An all-zero setup packet (every field of the 8 wire bytes is 0), as
carried by non-control submits. -/
def setupZero : SetupRequest :=
  { bm_request_type_direction := .Out, bm_request_type_kind := .Standard,
    bm_request_type_recipient := .Device, b_request := .GetStatus,
    w_value := 0, w_index := 0, w_length := 0 }

/-- A seven-byte report descriptor body. -/
def reportDescA : List Nat := [5, 1, 9, 6, 161, 1, 192]

/-- An HID interface with one report descriptor and one endpoint. -/
def hidIfaceA : HidInterface :=
  { iface := { b_length := 9, b_descriptor_type := 4, b_interface_number := 0,
               b_alternate_setting := 0, b_num_endpoints := 1, b_interface_class := 3,
               b_interface_subclass := 0, b_interface_protocol := 0, i_interface := 0 },
    descriptor := { b_length := 9, b_descriptor_type := 33, bcd_hid := 0x0110,
                    b_country_code := 0, b_num_descriptors := 1 },
    report_descriptors := [reportDescA],
    report_descriptor_info := [{ b_descriptor_type := 34, w_descriptor_length := 7 }],
    endpoint_descriptors := [EndpointDescriptor.new] }

/-- A self-powered configuration (bmAttributes = 0xC0, so the
`SELF_POWERED` bit 6 is set) with value 1, holding `hidIfaceA`. -/
def cfgA : Configuration :=
  { conf_desc := { ConfigurationDescriptor.new with bm_attributes := 0xC0 },
    interfaces := [.Hid hidIfaceA] }

def infoA : Info :=
  { device_desc := DeviceDescriptor.new 0x28de 0x1205,
    device_qualifier_desc := DeviceQualifierDescriptor.new,
    configs := [cfgA],
    string_descs := [{ data := [9, 4] }] }

/-- The fixture device before SET_CONFIGURATION. -/
def devA : VirtualUSBDevice := VirtualUSBDevice.new infoA

/-- The fixture device after SET_CONFIGURATION(1): `cfgA` is current. -/
def devConfigured : VirtualUSBDevice := { devA with current_config := some cfgA }

/-- The submit header of a 3-byte bulk OUT to endpoint 1 (seqnum 7). -/
def hdrOut3 : USBIPHeaderCmdSubmit :=
  { base := { command := 1, seqnum := 7, devid := 2, direction := .Out, ep := 1 },
    transfer_flags := 0, transfer_buffer_length := 3, start_frame := 0,
    number_of_packets := 0, interval := 0, setup := setupZero }

/-- A 3-byte bulk OUT submit to endpoint 1. -/
def cmdOut3 : Command := { header := .CmdSubmit hdrOut3, payload := [0xAA, 0xBB, 0xCC] }

/-- Endpoint-0 GET_DESCRIPTOR for descriptor type Debug (wValue 0x0A00),
wLength 64, as an IN submit (seqnum 9). -/
def cmdGetDescDebug : Command :=
  { header := .CmdSubmit
      { base := { command := 1, seqnum := 9, devid := 2, direction := .In, ep := 0 },
        transfer_flags := 0, transfer_buffer_length := 64, start_frame := 0,
        number_of_packets := 0, interval := 0,
        setup := { bm_request_type_direction := .In, bm_request_type_kind := .Standard,
                   bm_request_type_recipient := .Device, b_request := .GetDescriptor,
                   w_value := 0x0A00, w_index := 0, w_length := 64 } },
    payload := [] }

/-- Endpoint-0 GET_STATUS as an IN submit (seqnum 11), wLength 4. -/
def cmdGetStatus : Command :=
  { header := .CmdSubmit
      { base := { command := 1, seqnum := 11, devid := 2, direction := .In, ep := 0 },
        transfer_flags := 0, transfer_buffer_length := 4, start_frame := 0,
        number_of_packets := 0, interval := 0,
        setup := { bm_request_type_direction := .In, bm_request_type_kind := .Standard,
                   bm_request_type_recipient := .Device, b_request := .GetStatus,
                   w_value := 0, w_index := 0, w_length := 4 } },
    payload := [] }

/-- Endpoint-0 SET_CONFIGURATION(1) carried on an IN-direction submit
(seqnum 13). -/
def cmdSetConfigIn : Command :=
  { header := .CmdSubmit
      { base := { command := 1, seqnum := 13, devid := 2, direction := .In, ep := 0 },
        transfer_flags := 0, transfer_buffer_length := 0, start_frame := 0,
        number_of_packets := 0, interval := 0,
        setup := { bm_request_type_direction := .Out, bm_request_type_kind := .Standard,
                   bm_request_type_recipient := .Device, b_request := .SetConfiguration,
                   w_value := 1, w_index := 0, w_length := 0 } },
    payload := [] }

/-- Endpoint-0 SET_CONFIGURATION(1) carried on an OUT-direction submit
(seqnum 14). -/
def cmdSetConfigOut : Command :=
  { header := .CmdSubmit
      { base := { command := 1, seqnum := 14, devid := 2, direction := .Out, ep := 0 },
        transfer_flags := 0, transfer_buffer_length := 0, start_frame := 0,
        number_of_packets := 0, interval := 0,
        setup := { bm_request_type_direction := .Out, bm_request_type_kind := .Standard,
                   bm_request_type_recipient := .Device, b_request := .SetConfiguration,
                   w_value := 1, w_index := 0, w_length := 0 } },
    payload := [] }

/-- The submit header of an IN submit to endpoint 16 (seqnum 15). -/
def hdrIn16 : USBIPHeaderCmdSubmit :=
  { base := { command := 1, seqnum := 15, devid := 2, direction := .In, ep := 16 },
    transfer_flags := 0, transfer_buffer_length := 8, start_frame := 0,
    number_of_packets := 0, interval := 0, setup := setupZero }

/-- An IN submit to endpoint 16. -/
def cmdIn16 : Command := { header := .CmdSubmit hdrIn16, payload := [] }

/-- The submit header of a class-specific (HID SET_REPORT-shaped) OUT control
transfer on endpoint 0: bmRequestType 0x21 (OUT | Class | Interface),
bRequest 0x09 (seqnum 17). -/
def hdrClassOut : USBIPHeaderCmdSubmit :=
  { base := { command := 1, seqnum := 17, devid := 2, direction := .Out, ep := 0 },
    transfer_flags := 0, transfer_buffer_length := 2, start_frame := 0,
    number_of_packets := 0, interval := 0,
    setup := { bm_request_type_direction := .Out, bm_request_type_kind := .Class,
               bm_request_type_recipient := .Interface, b_request := .SetConfiguration,
               w_value := 0x0300, w_index := 0, w_length := 2 } }

/-- A class-specific OUT control transfer on endpoint 0 with a 2-byte
payload. -/
def cmdClassOut : Command := { header := .CmdSubmit hdrClassOut, payload := [1, 255] }

/-- An HID interface with no report descriptors and no endpoints: it packs to
the minimal 15 bytes. -/
def hidIfaceMin : HidInterface :=
  { iface := { b_length := 9, b_descriptor_type := 4, b_interface_number := 0,
               b_alternate_setting := 0, b_num_endpoints := 0, b_interface_class := 3,
               b_interface_subclass := 0, b_interface_protocol := 0, i_interface := 0 },
    descriptor := { b_length := 6, b_descriptor_type := 33, bcd_hid := 0x0110,
                    b_country_code := 0, b_num_descriptors := 0 },
    report_descriptors := [],
    report_descriptor_info := [],
    endpoint_descriptors := [] }

/-- A configuration with 256 interfaces, so that `interfaces.len() as u8`
wraps to 0. -/
def cfg256 : Configuration :=
  { conf_desc := ConfigurationDescriptor.new,
    interfaces := List.replicate 256 (.Hid hidIfaceMin) }

/-- An unlink command (own seqnum 21) targeting the earlier submit seqnum 7. -/
def cmdUnlinkA : Command :=
  { header := .CmdUnlink
      { base := { command := 2, seqnum := 21, devid := 2, direction := .Out, ep := 1 },
        seqnum := 7 },
    payload := [] }

/-- Submit header of an OUT-direction standard request to recipient Interface
on endpoint 0 (seqnum 25). -/
def hdrIfaceOut : USBIPHeaderCmdSubmit :=
  { base := { command := 1, seqnum := 25, devid := 2, direction := .Out, ep := 0 },
    transfer_flags := 0, transfer_buffer_length := 0, start_frame := 0,
    number_of_packets := 0, interval := 0,
    setup := { bm_request_type_direction := .Out, bm_request_type_kind := .Standard,
               bm_request_type_recipient := .Interface, b_request := .SetInterface,
               w_value := 0, w_index := 0, w_length := 0 } }

def cmdIfaceOut : Command := { header := .CmdSubmit hdrIfaceOut, payload := [] }

/-- Submit header of an IN-direction standard GET_STATUS to recipient
Interface on endpoint 0 (seqnum 27). -/
def hdrIfaceGetStatus : USBIPHeaderCmdSubmit :=
  { base := { command := 1, seqnum := 27, devid := 2, direction := .In, ep := 0 },
    transfer_flags := 0, transfer_buffer_length := 2, start_frame := 0,
    number_of_packets := 0, interval := 0,
    setup := { bm_request_type_direction := .In, bm_request_type_kind := .Standard,
               bm_request_type_recipient := .Interface, b_request := .GetStatus,
               w_value := 0, w_index := 0, w_length := 2 } }

def cmdIfaceGetStatus : Command := { header := .CmdSubmit hdrIfaceGetStatus, payload := [] }

/-- Submit header of an IN-direction standard GET_DESCRIPTOR to recipient
Interface for HID descriptor type Hid (wValue 0x2100) on endpoint 0
(seqnum 29). -/
def hdrIfaceGetDescHid : USBIPHeaderCmdSubmit :=
  { base := { command := 1, seqnum := 29, devid := 2, direction := .In, ep := 0 },
    transfer_flags := 0, transfer_buffer_length := 9, start_frame := 0,
    number_of_packets := 0, interval := 0,
    setup := { bm_request_type_direction := .In, bm_request_type_kind := .Standard,
               bm_request_type_recipient := .Interface, b_request := .GetDescriptor,
               w_value := 0x2100, w_index := 0, w_length := 9 } }

def cmdIfaceGetDescHid : Command := { header := .CmdSubmit hdrIfaceGetDescHid, payload := [] }

/-! ### Claim theorems -/

/-- C1: handling a 3-byte OUT submit on endpoint 1 emits a RET_SUBMIT whose
`actual_length` is 0, not the received payload length 3, because
`VirtualUSBDevice::reply` populates `actual_length` from its (empty) `data`
argument and only uses the passed length as the unused `status` parameter.
The returned transfer does carry the endpoint, the payload bytes and the OUT
direction, and the reply payload is empty, as the claim states. -/
theorem c1_out_submit_ack_evaluated :
    handle_command devA cmdOut3 =
      { device := devA,
        replies := [{ header := .RetSubmit {
                        base := { command := 3, seqnum := 7, devid := 2,
                                  direction := .Out, ep := 1 },
                        status := 0, actual_length := 0, start_frame := 0,
                        number_of_packets := 0, error_count := 0 },
                      payload := [] }],
        outcome := .ok (some { ep := 1, data := [0xAA, 0xBB, 0xCC], cmd := hdrOut3 }) }
    ∧ cmdOut3.payload.length = 3 :=
  ⟨rfl, rfl⟩

/-- C2: an endpoint-0 GET_DESCRIPTOR for descriptor type Debug does not
produce an empty-payload reply with status 1: the handler computes the empty
payload and status 1, but `VirtualUSBDevice::reply` rejects empty data on an
IN command, so no reply is emitted and the handler returns the
no-data error instead. -/
theorem c2_get_descriptor_debug_evaluated :
    handle_command devConfigured cmdGetDescDebug =
      { device := devConfigured, replies := [], outcome := .err .NoDataForInReply } :=
  rfl

/-- C4: with the active configuration self-powered (bmAttributes = 0xC0, so
`bmAttributes & SELF_POWERED = SELF_POWERED ≠ 0`), GET_STATUS still replies
with payload bytes 00 00 00 00, because the handler compares
`bm_attributes & SELF_POWERED` against 1 (never true for the bit-6 mask)
instead of against 0. -/
theorem c4_get_status_self_powered_evaluated :
    cfgA.conf_desc.bm_attributes &&& SELF_POWERED = SELF_POWERED
    ∧ devConfigured.current_config = some cfgA
    ∧ handle_command devConfigured cmdGetStatus =
      { device := devConfigured,
        replies := [{ header := .RetSubmit {
                        base := { command := 3, seqnum := 11, devid := 2,
                                  direction := .In, ep := 0 },
                        status := 0, actual_length := 4, start_frame := 0,
                        number_of_packets := 0, error_count := 0 },
                      payload := [0, 0, 0, 0] }],
        outcome := .ok none } :=
  ⟨rfl, rfl, rfl⟩

/-- C8: SET_CONFIGURATION(1) on an IN-direction submit sets the current
configuration but then fails with the no-data error instead of sending the
empty status-0 reply (`VirtualUSBDevice::reply` rejects empty IN data); the
same request on an OUT-direction submit replies empty with status 0 as the
claim states. -/
theorem c8_set_configuration_in_evaluated :
    handle_command devA cmdSetConfigIn =
      { device := devConfigured, replies := [], outcome := .err .NoDataForInReply }
    ∧ handle_command devA cmdSetConfigOut =
      { device := devConfigured,
        replies := [{ header := .RetSubmit {
                        base := { command := 3, seqnum := 14, devid := 2,
                                  direction := .Out, ep := 0 },
                        status := 0, actual_length := 0, start_frame := 0,
                        number_of_packets := 0, error_count := 0 },
                      payload := [] }],
        outcome := .ok none } :=
  ⟨rfl, rfl⟩

/-- C3 counterexample: an IN submit to endpoint 16 is accepted and produces a
transfer instead of failing with an invalid-endpoint error, because the
handlers compare against `ENDPOINT_MAX_COUNT = 32`, not 16. -/
theorem c3_endpoint16_accepted_counterexample :
    handle_command devA cmdIn16 =
      { device := devA, replies := [],
        outcome := .ok (some { ep := 16, data := [], cmd := hdrIn16 }) } :=
  rfl

/-- C5 counterexample: a class-specific OUT control transfer on endpoint 0
does get an automatic RET_SUBMIT acknowledgement (the non-zero-endpoint OUT
path is reused for it), and a wire setup packet whose bRequest byte is 0x21
(outside the 13 `StandardRequest` values) fails to decode, so such a request
never reaches the engine at all. -/
theorem c5_nonstandard_counterexample :
    (handle_command devA cmdClassOut).replies =
      [{ header := .RetSubmit {
            base := { command := 3, seqnum := 17, devid := 2,
                      direction := .Out, ep := 0 },
            status := 0, actual_length := 0, start_frame := 0,
            number_of_packets := 0, error_count := 0 },
          payload := [] }]
    ∧ SetupRequest.unpack [0x21, 0x21, 0, 0, 0, 0, 0, 0] = none :=
  ⟨rfl, rfl⟩

set_option maxRecDepth 100000 in
/-- C10 counterexample: a configuration with 256 interfaces packs byte 4
(bNumInterfaces) as 0, not 256, because the source stores
`interfaces.len() as u8`. -/
theorem c10_num_interfaces_truncation_counterexample :
    cfg256.interfaces.length = 256 ∧ cfg256.pack_to_vec.get? 4 = some 0 :=
  ⟨rfl, rfl⟩

/-- C7: for every unlink command (whose wire `command` word is
`USBIP_CMD_UNLINK`), the engine emits exactly one RET_UNLINK whose status is
−104 (ECONNRESET) and whose basic header repeats the unlink's own seqnum,
devid, direction and endpoint, surfaces no transfer, leaves the device state
unchanged, and reports no error. -/
theorem c7_unlink_ret_unlink (dev : VirtualUSBDevice) (cmd : Command)
    (h : USBIPHeaderCmdUnlink) (hhdr : cmd.header = .CmdUnlink h)
    (hcmd : h.base.command = USBIP_CMD_UNLINK) :
    handle_command dev cmd =
      { device := dev,
        replies := [{ header := .RetUnlink {
                        base := { command := USBIP_RET_UNLINK, seqnum := h.base.seqnum,
                                  devid := h.base.devid, direction := h.base.direction,
                                  ep := h.base.ep },
                        status := -104 },
                      payload := [] }],
        outcome := .ok none } := by
  obtain ⟨hdr, payload⟩ := cmd
  simp only at hhdr
  subst hhdr
  simp [handle_command, handle_command_unlink, replyToCommand, hcmd,
        USBIP_CMD_UNLINK, USBIP_RET_UNLINK]

/-- C7 witness: the concrete unlink `cmdUnlinkA` (own seqnum 21, devid 2,
direction OUT, endpoint 1) is acknowledged by a RET_UNLINK repeating those
fields with status −104 and no transfer. -/
theorem c7_unlink_ret_unlink_witness :
    handle_command devA cmdUnlinkA =
      { device := devA,
        replies := [{ header := .RetUnlink {
                        base := { command := 4, seqnum := 21, devid := 2,
                                  direction := .Out, ep := 1 },
                        status := -104 },
                      payload := [] }],
        outcome := .ok none } :=
  c7_unlink_ret_unlink devA cmdUnlinkA
    { base := { command := 2, seqnum := 21, devid := 2, direction := .Out, ep := 1 },
      seqnum := 7 } rfl rfl

/-- C9: every RET_SUBMIT built in response to a CMD_SUBMIT mirrors the
originating submit's basic-header seqnum, devid, direction and endpoint,
both on the engine's `reply` path and in `Reply::from_xfer`. -/
theorem c9_ret_submit_mirrors_header :
    (∀ (cmd : Command) (h : USBIPHeaderCmdSubmit) (data : List Nat) (status : Int)
        (r : Reply),
        cmd.header = .CmdSubmit h → h.base.command = USBIP_CMD_SUBMIT →
        replyToCommand cmd data status = .ok r →
        ∃ s, r.header = .RetSubmit s ∧ s.base.seqnum = h.base.seqnum ∧
          s.base.devid = h.base.devid ∧ s.base.direction = h.base.direction ∧
          s.base.ep = h.base.ep)
    ∧ ∀ (xfer : Xfer) (data : List Nat),
        ∃ s, (Reply.from_xfer xfer data).header = .RetSubmit s ∧
          s.base.seqnum = xfer.cmd.base.seqnum ∧ s.base.devid = xfer.cmd.base.devid ∧
          s.base.direction = xfer.cmd.base.direction ∧ s.base.ep = xfer.cmd.base.ep := by
  constructor
  · intro cmd h data status r hhdr hcmd hok
    obtain ⟨hdr, payload⟩ := cmd
    simp only at hhdr
    subst hhdr
    unfold replyToCommand at hok
    simp only [hcmd, USBIP_CMD_SUBMIT] at hok
    cases hd : h.base.direction
    · rw [hd] at hok
      injection hok with hr
      subst hr
      exact ⟨_, rfl, rfl, rfl, rfl, rfl⟩
    · rw [hd] at hok
      by_cases he : data.isEmpty
      · simp [he] at hok
      · simp only [he, if_neg, ite_false, Bool.false_eq_true] at hok
        injection hok with hr
        subst hr
        exact ⟨_, rfl, rfl, rfl, rfl, rfl⟩
  · intro xfer data
    exact ⟨_, rfl, rfl, rfl, rfl, rfl⟩

/-- C9 witness: the RET_SUBMIT built for the concrete 3-byte OUT submit
`cmdOut3`, and `Reply::from_xfer` on a transfer carrying `hdrOut3`, both
mirror seqnum 7, devid 2, direction OUT, endpoint 1. -/
theorem c9_ret_submit_mirrors_header_witness :
    (∃ s, ({ header := .RetSubmit {
               base := { command := 3, seqnum := 7, devid := 2,
                         direction := .Out, ep := 1 },
               status := 0, actual_length := 0, start_frame := 0,
               number_of_packets := 0, error_count := 0 },
             payload := [] } : Reply).header = .RetSubmit s ∧
        s.base.seqnum = hdrOut3.base.seqnum ∧ s.base.devid = hdrOut3.base.devid ∧
        s.base.direction = hdrOut3.base.direction ∧ s.base.ep = hdrOut3.base.ep)
    ∧ ∃ s, (Reply.from_xfer { ep := 1, data := [0xAA, 0xBB, 0xCC], cmd := hdrOut3 }
              []).header = .RetSubmit s ∧
        s.base.seqnum = hdrOut3.base.seqnum ∧ s.base.devid = hdrOut3.base.devid ∧
        s.base.direction = hdrOut3.base.direction ∧ s.base.ep = hdrOut3.base.ep :=
  ⟨c9_ret_submit_mirrors_header.1 cmdOut3 hdrOut3 [] 0 _ rfl rfl rfl,
   c9_ret_submit_mirrors_header.2 { ep := 1, data := [0xAA, 0xBB, 0xCC], cmd := hdrOut3 } []⟩

/-- C3 amended: a submit on a non-zero endpoint is accepted — producing a
transfer that carries the submit's endpoint number — exactly when the
endpoint index is below `ENDPOINT_MAX_COUNT = 32` (not 16); indices 32 and
above fail with the invalid-endpoint error, so every accepted transfer has
its endpoint in [0, 32). -/
theorem c3_endpoint_bound_amended (dev : VirtualUSBDevice) (cmd : Command)
    (h : USBIPHeaderCmdSubmit) (hhdr : cmd.header = .CmdSubmit h)
    (hep : h.base.ep ≠ 0) (hcmd : h.base.command = USBIP_CMD_SUBMIT) :
    (h.base.ep < ENDPOINT_MAX_COUNT →
      ∃ x, (handle_command dev cmd).outcome = .ok (some x) ∧
        x.ep = h.base.ep ∧ x.ep < ENDPOINT_MAX_COUNT)
    ∧ (ENDPOINT_MAX_COUNT ≤ h.base.ep →
      handle_command dev cmd =
        { device := dev, replies := [], outcome := .err .InvalidEndpoint }) := by
  obtain ⟨hdr, payload⟩ := cmd
  simp only at hhdr
  subst hhdr
  constructor
  · intro hlt
    have hnle : ¬ ENDPOINT_MAX_COUNT ≤ h.base.ep := Nat.not_le.mpr hlt
    have hmod : h.base.ep % 256 = h.base.ep :=
      Nat.mod_eq_of_lt (lt_trans hlt (by norm_num [ENDPOINT_MAX_COUNT]))
    refine ⟨{ ep := h.base.ep % 256, data := payload, cmd := h }, ?_, hmod, ?_⟩
    · cases hd : h.base.direction
      · simp [handle_command, handle_command_submit_epX, handle_command_submit_epX_out,
              replyToCommand, hep, hd, hcmd, USBIP_CMD_SUBMIT, hnle]
      · simp [handle_command, handle_command_submit_epX, handle_command_submit_epX_in,
              hep, hd, hnle]
    · rw [hmod]; exact hlt
  · intro hge
    cases hd : h.base.direction
    · simp [handle_command, handle_command_submit_epX, handle_command_submit_epX_out,
            hep, hd, hge]
    · simp [handle_command, handle_command_submit_epX, handle_command_submit_epX_in,
            hep, hd, hge]

/-- C3 amended witness: the IN submit to endpoint 16 instantiates the
amended bound theorem (16 < 32, so the submit is accepted). -/
theorem c3_endpoint_bound_amended_witness :
    (hdrIn16.base.ep < ENDPOINT_MAX_COUNT →
      ∃ x, (handle_command devA cmdIn16).outcome = .ok (some x) ∧
        x.ep = hdrIn16.base.ep ∧ x.ep < ENDPOINT_MAX_COUNT)
    ∧ (ENDPOINT_MAX_COUNT ≤ hdrIn16.base.ep →
      handle_command devA cmdIn16 =
        { device := devA, replies := [], outcome := .err .InvalidEndpoint }) :=
  c3_endpoint_bound_amended devA cmdIn16 hdrIn16 rfl (by decide) rfl

/-- C5 amended: an endpoint-0 submit whose setup type is not Standard always
produces a transfer with the originating submit header attached; no
automatic reply is sent when its USB/IP direction is IN, but for an OUT
direction the engine reuses the non-zero-endpoint OUT path and emits an
immediate RET_SUBMIT acknowledgement. (Requests whose bRequest byte is not
one of the 13 `StandardRequest` values cannot be decoded at all — see the
counterexample — so they never reach this handler.) -/
theorem c5_nonstandard_amended (dev : VirtualUSBDevice) (cmd : Command)
    (h : USBIPHeaderCmdSubmit) (hhdr : cmd.header = .CmdSubmit h)
    (hep : h.base.ep = 0) (hcmd : h.base.command = USBIP_CMD_SUBMIT)
    (hns : h.setup.is_standard = false) :
    (h.base.direction = .In →
      handle_command dev cmd =
        { device := dev, replies := [],
          outcome := .ok (some { ep := 0, data := cmd.payload, cmd := h }) })
    ∧ (h.base.direction = .Out →
      handle_command dev cmd =
        { device := dev,
          replies := [{ header := .RetSubmit {
                          base := { command := USBIP_RET_SUBMIT, seqnum := h.base.seqnum,
                                    devid := h.base.devid, direction := .Out,
                                    ep := h.base.ep },
                          status := 0, actual_length := 0, start_frame := 0,
                          number_of_packets := 0, error_count := 0 },
                        payload := [] }],
          outcome := .ok (some { ep := 0, data := cmd.payload, cmd := h }) }) := by
  obtain ⟨hdr, payload⟩ := cmd
  simp only at hhdr
  subst hhdr
  constructor
  · intro hd
    simp [handle_command, handle_command_submit_ep0, handle_command_submit_epX,
          handle_command_submit_epX_in, hns, hep, hd, ENDPOINT_MAX_COUNT]
  · intro hd
    simp [handle_command, handle_command_submit_ep0, handle_command_submit_epX,
          handle_command_submit_epX_out, replyToCommand, hns, hep, hd, hcmd,
          USBIP_CMD_SUBMIT, ENDPOINT_MAX_COUNT]

/-- C5 amended witness: the class-specific OUT control transfer `cmdClassOut`
instantiates the amended theorem: the transfer is surfaced with the submit
header attached, alongside the automatic acknowledgement. -/
theorem c5_nonstandard_amended_witness :
    (hdrClassOut.base.direction = .In →
      handle_command devA cmdClassOut =
        { device := devA, replies := [],
          outcome := .ok (some { ep := 0, data := cmdClassOut.payload,
                                 cmd := hdrClassOut }) })
    ∧ (hdrClassOut.base.direction = .Out →
      handle_command devA cmdClassOut =
        { device := devA,
          replies := [{ header := .RetSubmit {
                          base := { command := USBIP_RET_SUBMIT,
                                    seqnum := hdrClassOut.base.seqnum,
                                    devid := hdrClassOut.base.devid, direction := .Out,
                                    ep := hdrClassOut.base.ep },
                          status := 0, actual_length := 0, start_frame := 0,
                          number_of_packets := 0, error_count := 0 },
                        payload := [] }],
          outcome := .ok (some { ep := 0, data := cmdClassOut.payload,
                                 cmd := hdrClassOut }) }) :=
  c5_nonstandard_amended devA cmdClassOut hdrClassOut rfl rfl rfl rfl

/-- C6: endpoint-0 standard requests with recipient Interface panic in every
case the claim lists: any OUT-direction request hits `todo!()`, any IN
request other than GET_DESCRIPTOR hits `todo!()`, and an HID GET_DESCRIPTOR
whose wValue high byte decodes to the `Hid` (0x21) or `Physical` (0x23) HID
descriptor type hits `todo!()`, while a high byte outside 0x21..=0x23 makes
the `HidGetDescriptorRequest` conversion unwrap a failed unpack — i.e.
whenever the high byte is anything other than 0x22 (Report), the handler
panics. -/
theorem c6_iface_request_panics (dev : VirtualUSBDevice) (cmd : Command)
    (h : USBIPHeaderCmdSubmit) (hhdr : cmd.header = .CmdSubmit h)
    (hep : h.base.ep = 0) (hstd : h.setup.bm_request_type_kind = .Standard)
    (hrec : h.setup.bm_request_type_recipient = .Interface) :
    (h.base.direction = .Out →
      handle_command dev cmd = { device := dev, replies := [], outcome := .panic })
    ∧ (h.base.direction = .In → h.setup.b_request ≠ .GetDescriptor →
      handle_command dev cmd = { device := dev, replies := [], outcome := .panic })
    ∧ (h.base.direction = .In → h.setup.b_request = .GetDescriptor →
      ∀ config hid_iface, dev.current_config = some config →
        config.interfaces[h.setup.w_index]? = some (.Hid hid_iface) →
        HidDescriptorType.fromByte (hi8 h.setup.w_value) ≠ some .Report →
        handle_command dev cmd = { device := dev, replies := [], outcome := .panic }) := by
  obtain ⟨hdr, payload⟩ := cmd
  simp only at hhdr
  subst hhdr
  obtain ⟨base, tf, tbl, sf, np, iv, setup⟩ := h
  obtain ⟨d, k, rec, breq, wv, wi, wl⟩ := setup
  simp only at hstd hrec hep
  subst hstd
  subst hrec
  refine ⟨?_, ?_, ?_⟩
  · intro hd
    simp only at hd
    simp [handle_command, handle_command_submit_ep0, SetupRequest.is_standard,
          handle_command_submit_ep0_standard_request,
          handle_command_submit_ep0_standard_request_for_iface, hep, hd]
  · intro hd hreq
    simp only at hd hreq
    cases breq <;>
      first
      | exact absurd rfl hreq
      | simp [handle_command, handle_command_submit_ep0, SetupRequest.is_standard,
              handle_command_submit_ep0_standard_request,
              handle_command_submit_ep0_standard_request_for_iface, hep, hd]
  · intro hd hreq config hid_iface hcfg hiface hdt
    simp only at hd hreq hcfg hiface hdt ⊢
    subst hreq
    have hfs : HidGetDescriptorRequest.fromSetup
        { bm_request_type_direction := d, bm_request_type_kind := .Standard,
          bm_request_type_recipient := .Interface, b_request := .GetDescriptor,
          w_value := wv, w_index := wi, w_length := wl } =
        (HidDescriptorType.fromByte (hi8 wv)).map (fun dt =>
          { bm_request_type_direction := d, bm_request_type_kind := .Standard,
            bm_request_type_recipient := .Interface, b_request := .GetDescriptor,
            b_descriptor_index := lo8 wv, b_descriptor_type := dt,
            w_interface_number := lo8 wi + 256 * hi8 wi,
            w_descriptor_length := lo8 wl + 256 * hi8 wl }) := by
      cases d <;>
        · unfold HidGetDescriptorRequest.fromSetup SetupRequest.pack
            HidGetDescriptorRequest.unpack
          simp [Direction.toBit, RequestType.toBits, Recipient.toByte,
                StandardRequest.toByte, Direction.fromBit, RequestType.fromBits,
                Recipient.fromByte, StandardRequest.fromByte]
          cases HidDescriptorType.fromByte (hi8 wv) <;> simp
    rcases hft : HidDescriptorType.fromByte (hi8 wv) with _ | dt
    · simp [handle_command, handle_command_submit_ep0, SetupRequest.is_standard,
            handle_command_submit_ep0_standard_request,
            handle_command_submit_ep0_standard_request_for_iface, hep, hd, hcfg,
            hiface, hfs, hft]
    · have hdt' : dt ≠ .Report := by
        intro hcon
        exact hdt (by rw [hft, hcon])
      cases dt
      · simp [handle_command, handle_command_submit_ep0, SetupRequest.is_standard,
              handle_command_submit_ep0_standard_request,
              handle_command_submit_ep0_standard_request_for_iface, hep, hd, hcfg,
              hiface, hfs, hft]
      · exact absurd rfl hdt'
      · simp [handle_command, handle_command_submit_ep0, SetupRequest.is_standard,
              handle_command_submit_ep0_standard_request,
              handle_command_submit_ep0_standard_request_for_iface, hep, hd, hcfg,
              hiface, hfs, hft]

/-- C6 witness: on the configured fixture device, an interface-recipient
standard OUT request, an interface-recipient standard IN GET_STATUS, and an
HID GET_DESCRIPTOR with descriptor type Hid (0x21) each panic. -/
theorem c6_iface_request_panics_witness :
    handle_command devConfigured cmdIfaceOut =
      { device := devConfigured, replies := [], outcome := .panic }
    ∧ handle_command devConfigured cmdIfaceGetStatus =
      { device := devConfigured, replies := [], outcome := .panic }
    ∧ handle_command devConfigured cmdIfaceGetDescHid =
      { device := devConfigured, replies := [], outcome := .panic } :=
  ⟨(c6_iface_request_panics devConfigured cmdIfaceOut hdrIfaceOut
      rfl rfl rfl rfl).1 rfl,
   (c6_iface_request_panics devConfigured cmdIfaceGetStatus hdrIfaceGetStatus
      rfl rfl rfl rfl).2.1 rfl (by decide),
   (c6_iface_request_panics devConfigured cmdIfaceGetDescHid hdrIfaceGetDescHid
      rfl rfl rfl rfl).2.2 rfl rfl cfgA hidIfaceA rfl rfl (by decide)⟩

/-- Each packed `HidReportDescriptorInfo` header contributes 3 bytes. -/
theorem length_flatten_report_info (l : List HidReportDescriptorInfo) :
    ((l.map HidReportDescriptorInfo.pack_to_vec).flatten).length = 3 * l.length := by
  induction l with
  | nil => rfl
  | cons a t ih =>
    simp only [List.map_cons, List.flatten_cons, List.length_append, ih,
               HidReportDescriptorInfo.pack_to_vec, List.length_cons, List.length_nil]
    omega

/-- Each packed `EndpointDescriptor` contributes 7 bytes. -/
theorem length_flatten_endpoint (l : List EndpointDescriptor) :
    ((l.map EndpointDescriptor.pack_to_vec).flatten).length = 7 * l.length := by
  induction l with
  | nil => rfl
  | cons a t ih =>
    simp only [List.map_cons, List.flatten_cons, List.length_append, ih,
               EndpointDescriptor.pack_to_vec, List.length_cons, List.length_nil]
    omega

/-- An interface packs to exactly `get_size` bytes. -/
theorem interface_pack_length (i : Interface) : i.pack_to_vec.length = i.get_size := by
  cases i with
  | Hid h =>
    simp only [Interface.pack_to_vec, Interface.get_size, HidInterface.pack_to_vec,
               HidInterface.get_size, List.length_append, length_flatten_report_info,
               length_flatten_endpoint, InterfaceDescriptor.pack_to_vec,
               HidDescriptor.pack_to_vec, List.length_cons, List.length_nil]

/-- A configuration packs to exactly `get_size` bytes. -/
theorem configuration_pack_length (c : Configuration) :
    c.pack_to_vec.length = c.get_size := by
  have hfold : ∀ (l : List Interface) (a : Nat),
      l.foldl (fun size iface => size + iface.get_size) a =
        a + ((l.map Interface.pack_to_vec).flatten).length := by
    intro l
    induction l with
    | nil => intro a; simp
    | cons i t ih =>
      intro a
      simp only [List.foldl_cons, ih, List.map_cons, List.flatten_cons,
                 List.length_append, interface_pack_length]
      omega
  simp only [Configuration.pack_to_vec, Configuration.get_size,
             ConfigurationDescriptor.pack_to_vec, List.length_append, hfold,
             List.length_cons, List.length_nil]

/-- C10 amended: provided the configuration has fewer than 256 interfaces and
its serialized size is below 65536 (inside the ranges of the `as u8` and
`as u16` casts the source performs), the packed bytes satisfy the claim:
bytes 2 and 3 are the little-endian total length of the packed vector and
byte 4 is the number of interfaces in the live interface list, whatever the
values stored in the configuration descriptor beforehand. -/
theorem c10_configuration_pack_amended (c : Configuration)
    (hn : c.interfaces.length < 256) (hs : c.get_size < 65536) :
    c.pack_to_vec.length = c.get_size
    ∧ c.pack_to_vec.get? 2 = some (c.pack_to_vec.length % 256)
    ∧ c.pack_to_vec.get? 3 = some (c.pack_to_vec.length / 256)
    ∧ c.pack_to_vec.get? 4 = some c.interfaces.length := by
  have hlen := configuration_pack_length c
  have hmod : c.get_size % 65536 = c.get_size := Nat.mod_eq_of_lt hs
  have hdiv : c.get_size / 256 < 256 := by omega
  refine ⟨hlen, ?_, ?_, ?_⟩
  · rw [hlen]
    simp only [Configuration.pack_to_vec, ConfigurationDescriptor.pack_to_vec,
               List.cons_append, List.get?_cons_succ, List.get?_cons_zero, lo8,
               Option.some.injEq]
    omega
  · rw [hlen]
    simp only [Configuration.pack_to_vec, ConfigurationDescriptor.pack_to_vec,
               List.cons_append, List.get?_cons_succ, List.get?_cons_zero, hi8,
               Option.some.injEq]
    omega
  · simp only [Configuration.pack_to_vec, ConfigurationDescriptor.pack_to_vec,
               List.cons_append, List.get?_cons_succ, List.get?_cons_zero, byte8,
               Option.some.injEq]
    omega

/-- C10 amended witness: the fixture configuration `cfgA` (one interface,
43 bytes) instantiates the amended packing theorem. -/
theorem c10_configuration_pack_amended_witness :
    cfgA.interfaces.length < 256 ∧ cfgA.get_size < 65536 ∧
      (cfgA.pack_to_vec.length = cfgA.get_size
       ∧ cfgA.pack_to_vec.get? 2 = some (cfgA.pack_to_vec.length % 256)
       ∧ cfgA.pack_to_vec.get? 3 = some (cfgA.pack_to_vec.length / 256)
       ∧ cfgA.pack_to_vec.get? 4 = some cfgA.interfaces.length) :=
  ⟨by decide, by decide, c10_configuration_pack_amended cfgA (by decide) (by decide)⟩

end VUsb
